import Mathlib

/-!
Shallow embedding of `AdaptiveTXWSN.h`, the adaptive-transmission scheduler
for a battery-powered WSN node, together with theorems checking its
natural-language specification.

Modelling conventions:
* C float voltages become `ℚ` (the claims are about order comparisons,
  which the rational model decides exactly).
* `uint32_t` millisecond timestamps and periods become `Nat` with explicit
  reduction `% 2^32` wherever the C code's unsigned arithmetic wraps;
  the `(int32_t)` cast is the explicit function `toInt32`.
* The hardware ADC sampling path of `readBatteryVolts` (the `analogRead`
  averaging loop) is an external collaborator; its result enters the model
  as the parameter `hw`.  The pin-absent branch (`pinAdcBateria < 0`) is
  modelled exactly.
* `tick` is the cycle operation; the single `millis()` value it reads is
  the parameter `ahoraMs`.  `begin`'s `millis()` is likewise a parameter.
-/

namespace AdaptiveTXWSN

/-- The three discrete energy levels of the node (enum `Level` with codes
LOW = 0, MID = 1, HIGH = 2). -/
inductive Level : Type where
  | BATT_LOW : Level
  | BATT_MID : Level
  | BATT_HIGH : Level
deriving DecidableEq, Repr

/-- Numeric code of a level, as declared in the C enum. -/
def Level.toNat : Level → Nat
  | .BATT_LOW => 0
  | .BATT_MID => 1
  | .BATT_HIGH => 2

/-- Configuration struct `Cfg`, with the source's default member values. -/
structure Cfg where
  pinAdcBateria : Int := -1
  voltajeReferenciaAdc : ℚ := 5
  divisorRArriba_k : ℚ := 100
  divisorRAbajo_k : ℚ := 33
  muestrasPromedioAdc : Nat := 8
  umbralAlto_V : ℚ := 3.90
  umbralMedio_V : ℚ := 3.60
  fraccionHisteresis : ℚ := 0.03
  periodoAlto_ms : Nat := 5000
  periodoMedio_ms : Nat := 15000
  periodoBajo_ms : Nat := 120000
  corteVoltaje_V : ℚ := 3.40
deriving DecidableEq, Repr

/-- The private member state of an `AdaptiveTXWSN` instance. -/
structure State where
  configuracion : Cfg
  nivelEnergeticoActual : Level
  msProximoEnvio : Nat
  ultimoVoltajeMedido_V : ℚ
  bloqueadoPorCorte : Bool
  usarLecturaInyectada : Bool
  voltajeInyectado_V : ℚ
deriving DecidableEq, Repr

/-- 2^32, the modulus of `uint32_t` arithmetic. -/
def u32 : Nat := 4294967296

/-- 2^31, the boundary between nonnegative and negative `int32_t`
reinterpretations of a `uint32_t` value. -/
def i31 : Nat := 2147483648

/-- `uint32_t` subtraction `a - b` (wrapping): `(a - b) mod 2^32`. -/
def wrapSub (a b : Nat) : Nat := (a % u32 + (u32 - b % u32)) % u32

/-- The `(int32_t)` reinterpretation of a `uint32_t` value. -/
def toInt32 (n : Nat) : Int :=
  if n % u32 < i31 then (n % u32 : Int) else (n % u32 : Int) - (u32 : Int)

/-- The timer due-test of `tick` step 4:
`(int32_t)(ahoraMs - msProximoEnvio) >= 0`. -/
def dueReached (ahoraMs msProximoEnvio : Nat) : Bool :=
  decide (0 ≤ toInt32 (wrapSub ahoraMs msProximoEnvio))

/-- `readBatteryVolts()`: without a configured pin it returns the cached
last measurement; with a pin it returns the voltage computed from the ADC
averaging loop, which is hardware I/O and enters here as `hw`. -/
def readBatteryVolts (s : State) (hw : ℚ) : ℚ :=
  if s.configuracion.pinAdcBateria < 0 then s.ultimoVoltajeMedido_V else hw

/-- Step 1 of `tick()`: the measured voltage — the injected value when
`usarLecturaInyectada` is set, otherwise `readBatteryVolts()`. -/
def measuredVolts (s : State) (hw : ℚ) : ℚ :=
  if s.usarLecturaInyectada then s.voltajeInyectado_V else readBatteryVolts s hw

/-- `actualizarNivelConHisteresis`: the hysteresis classification step,
returning the next level from the current level and the measured voltage. -/
def actualizarNivelConHisteresis (cfg : Cfg) (nivel : Level) (voltajeBateria_V : ℚ) : Level :=
  let diferencialAlto_V := cfg.umbralAlto_V * cfg.fraccionHisteresis
  let diferencialMedio_V := cfg.umbralMedio_V * cfg.fraccionHisteresis
  match nivel with
  | .BATT_HIGH =>
      if voltajeBateria_V < cfg.umbralAlto_V - diferencialAlto_V then .BATT_MID
      else .BATT_HIGH
  | .BATT_MID =>
      if voltajeBateria_V ≥ cfg.umbralAlto_V + diferencialAlto_V then .BATT_HIGH
      else if voltajeBateria_V < cfg.umbralMedio_V - diferencialMedio_V then .BATT_LOW
      else .BATT_MID
  | .BATT_LOW =>
      if voltajeBateria_V ≥ cfg.umbralMedio_V + diferencialMedio_V then .BATT_MID
      else .BATT_LOW

/-- `currentPeriod()`: period for the current level (the C `switch` sends
`BATT_LOW` through the `default` branch). -/
def currentPeriod (s : State) : Nat :=
  match s.nivelEnergeticoActual with
  | .BATT_HIGH => s.configuracion.periodoAlto_ms
  | .BATT_MID => s.configuracion.periodoMedio_ms
  | .BATT_LOW => s.configuracion.periodoBajo_ms

/-- `tick()`: measure, apply the hard cutoff, update the level with
hysteresis, then evaluate the timer.  Returns the transmit decision and
the updated state. -/
def tick (s : State) (ahoraMs : Nat) (hw : ℚ) : Bool × State :=
  let voltajeBateria_V := measuredVolts s hw
  let s1 : State := { s with ultimoVoltajeMedido_V := voltajeBateria_V }
  if voltajeBateria_V < s1.configuracion.corteVoltaje_V then
    (false, { s1 with bloqueadoPorCorte := true })
  else
    let s2 : State := { s1 with
      bloqueadoPorCorte := false,
      nivelEnergeticoActual :=
        actualizarNivelConHisteresis s1.configuracion s1.nivelEnergeticoActual voltajeBateria_V }
    if dueReached ahoraMs s2.msProximoEnvio then
      (true, { s2 with msProximoEnvio := (ahoraMs + currentPeriod s2) % u32 })
    else
      (false, s2)

/-- `begin(cfg)`: store the configuration, set the level to `BATT_HIGH`
and the next due-time to the current `millis()` value (`ahoraMs`); the
other members are left as they were (the C++ code never writes them). -/
def begin (s : State) (cfg : Cfg) (ahoraMs : Nat) : State :=
  { s with
    configuracion := cfg,
    nivelEnergeticoActual := .BATT_HIGH,
    msProximoEnvio := ahoraMs % u32 }

/-- `setBatteryVolts(v)`: inject a measurement, switching the instance to
injected readings. -/
def setBatteryVolts (s : State) (voltajeBateria_V : ℚ) : State :=
  { s with usarLecturaInyectada := true, voltajeInyectado_V := voltajeBateria_V }

/-- `setPeriods`. -/
def setPeriods (s : State) (alto_ms medio_ms bajo_ms : Nat) : State :=
  { s with configuracion := { s.configuracion with
      periodoAlto_ms := alto_ms,
      periodoMedio_ms := medio_ms,
      periodoBajo_ms := bajo_ms } }

/-- `setThresholds`. -/
def setThresholds (s : State) (umbralAlto_V umbralMedio_V : ℚ) : State :=
  { s with configuracion := { s.configuracion with
      umbralAlto_V := umbralAlto_V,
      umbralMedio_V := umbralMedio_V } }

/-- `setHysteresisPct`. -/
def setHysteresisPct (s : State) (fraccion : ℚ) : State :=
  { s with configuracion := { s.configuracion with fraccionHisteresis := fraccion } }

/-- `level()` getter. -/
def level (s : State) : Level := s.nivelEnergeticoActual

/-- `lastVolts()` getter. -/
def lastVolts (s : State) : ℚ := s.ultimoVoltajeMedido_V

/-- `isCutoff()` getter. -/
def isCutoff (s : State) : Bool := s.bloqueadoPorCorte

/-- A `Cfg` with every member at its declared default. -/
def cfgDefault : Cfg := {}

/-- C1: one classification step follows exactly the hysteresis rules, with
the band edges written as `threshold × (1 ∓ hysteresisFraction)`: from HIGH
the level becomes MID iff v < high × (1 − f); from MID it becomes HIGH iff
v ≥ high × (1 + f), else LOW iff v < mid × (1 − f), else stays MID; from
LOW it becomes MID iff v ≥ mid × (1 + f). -/
theorem hysteresis_step_matches_spec (cfg : Cfg) (v : ℚ) :
    (actualizarNivelConHisteresis cfg .BATT_HIGH v =
      if v < cfg.umbralAlto_V * (1 - cfg.fraccionHisteresis) then .BATT_MID else .BATT_HIGH)
    ∧ (actualizarNivelConHisteresis cfg .BATT_MID v =
      if v ≥ cfg.umbralAlto_V * (1 + cfg.fraccionHisteresis) then .BATT_HIGH
      else if v < cfg.umbralMedio_V * (1 - cfg.fraccionHisteresis) then .BATT_LOW
      else .BATT_MID)
    ∧ (actualizarNivelConHisteresis cfg .BATT_LOW v =
      if v ≥ cfg.umbralMedio_V * (1 + cfg.fraccionHisteresis) then .BATT_MID else .BATT_LOW) := by
  have e1 : cfg.umbralAlto_V * (1 - cfg.fraccionHisteresis)
      = cfg.umbralAlto_V - cfg.umbralAlto_V * cfg.fraccionHisteresis := by ring
  have e2 : cfg.umbralAlto_V * (1 + cfg.fraccionHisteresis)
      = cfg.umbralAlto_V + cfg.umbralAlto_V * cfg.fraccionHisteresis := by ring
  have e3 : cfg.umbralMedio_V * (1 - cfg.fraccionHisteresis)
      = cfg.umbralMedio_V - cfg.umbralMedio_V * cfg.fraccionHisteresis := by ring
  have e4 : cfg.umbralMedio_V * (1 + cfg.fraccionHisteresis)
      = cfg.umbralMedio_V + cfg.umbralMedio_V * cfg.fraccionHisteresis := by ring
  rw [e1, e2, e3, e4]
  exact ⟨rfl, rfl, rfl⟩

/-- A concrete state used to witness theorems: injected reading 4 V,
level HIGH, due-time 0. -/
def sHi : State :=
  { configuracion := cfgDefault,
    nivelEnergeticoActual := .BATT_HIGH,
    msProximoEnvio := 0,
    ultimoVoltajeMedido_V := 4,
    bloqueadoPorCorte := false,
    usarLecturaInyectada := true,
    voltajeInyectado_V := 4 }

/-- A concrete state used to witness theorems: injected reading 3.35 V
(below the default 3.40 V cutoff), level MID. -/
def sLow : State :=
  { configuracion := cfgDefault,
    nivelEnergeticoActual := .BATT_MID,
    msProximoEnvio := 0,
    ultimoVoltajeMedido_V := 3.35,
    bloqueadoPorCorte := false,
    usarLecturaInyectada := true,
    voltajeInyectado_V := 3.35 }

/-- The claim's period-selection mapping: HIGH → periodHigh, MID →
periodMid, LOW → periodLow, read off a configuration and a level. -/
def periodForLevel (cfg : Cfg) (nivel : Level) : Nat :=
  match nivel with
  | .BATT_HIGH => cfg.periodoAlto_ms
  | .BATT_MID => cfg.periodoMedio_ms
  | .BATT_LOW => cfg.periodoBajo_ms

/-- C2: after any `tick`, `isCutoff()` holds iff the voltage measured in
that cycle was strictly below `corteVoltaje_V` (stale cutoff truth is
cleared), and whenever that voltage is below the cutoff the call returns
`false`, for every state, time and hardware reading. -/
theorem cutoff_flag_and_gate (s : State) (ahoraMs : Nat) (hw : ℚ) :
    (isCutoff (tick s ahoraMs hw).2
      = decide (measuredVolts s hw < s.configuracion.corteVoltaje_V))
    ∧ (measuredVolts s hw < s.configuracion.corteVoltaje_V →
        (tick s ahoraMs hw).1 = false) := by
  by_cases h : measuredVolts s hw < s.configuracion.corteVoltaje_V
  · simp [tick, isCutoff, h]
  · refine ⟨?_, fun hc => absurd hc h⟩
    simp only [tick, isCutoff, if_neg h, decide_eq_false h]
    split <;> rfl

/-- C8: a cut-off cycle (measured voltage below `corteVoltaje_V`) returns
`false` and writes only `ultimoVoltajeMedido_V` and `bloqueadoPorCorte`:
level, due-time, configuration and injection state are untouched. -/
theorem cutoff_frame (s : State) (ahoraMs : Nat) (hw : ℚ)
    (h : measuredVolts s hw < s.configuracion.corteVoltaje_V) :
    tick s ahoraMs hw
      = (false, { s with
          ultimoVoltajeMedido_V := measuredVolts s hw,
          bloqueadoPorCorte := true }) := by
  simp [tick, h]

/-- Witness for C8 at the concrete state `sLow` (3.35 V < 3.40 V). -/
theorem cutoff_frame_witness :
    (measuredVolts sLow 0 < sLow.configuracion.corteVoltaje_V)
    ∧ tick sLow 0 0
      = (false, { sLow with
          ultimoVoltajeMedido_V := measuredVolts sLow 0,
          bloqueadoPorCorte := true }) :=
  ⟨by norm_num [measuredVolts, sLow, cfgDefault],
   cutoff_frame sLow 0 0 (by norm_num [measuredVolts, sLow, cfgDefault])⟩

/-- C3: a cycle that passes the cutoff gate fires iff the due-test holds
at the call time: when due, it returns `true` and re-arms the timer to
`now + period` of the just-updated level; when not due, it returns `false`
and leaves the due-time unchanged. -/
theorem timer_fire_and_hold (s : State) (ahoraMs : Nat) (hw : ℚ)
    (hcut : ¬ measuredVolts s hw < s.configuracion.corteVoltaje_V) :
    (dueReached ahoraMs s.msProximoEnvio = true →
      (tick s ahoraMs hw).1 = true
      ∧ (tick s ahoraMs hw).2.msProximoEnvio
          = (ahoraMs + periodForLevel s.configuracion
              (actualizarNivelConHisteresis s.configuracion s.nivelEnergeticoActual
                (measuredVolts s hw))) % u32)
    ∧ (dueReached ahoraMs s.msProximoEnvio = false →
      (tick s ahoraMs hw).1 = false
      ∧ (tick s ahoraMs hw).2.msProximoEnvio = s.msProximoEnvio) := by
  constructor <;> intro h <;>
    simp [tick, hcut, h, currentPeriod, periodForLevel]

/-- Witness for C3 at the concrete state `sHi`, called at time 5: the
timer (due at 0) fires and is re-armed to 5005 = 5 + periodoAlto_ms. -/
theorem timer_fire_and_hold_witness :
    (¬ measuredVolts sHi 0 < sHi.configuracion.corteVoltaje_V)
    ∧ ((dueReached 5 sHi.msProximoEnvio = true →
        (tick sHi 5 0).1 = true
        ∧ (tick sHi 5 0).2.msProximoEnvio
            = (5 + periodForLevel sHi.configuracion
                (actualizarNivelConHisteresis sHi.configuracion sHi.nivelEnergeticoActual
                  (measuredVolts sHi 0))) % u32)
      ∧ (dueReached 5 sHi.msProximoEnvio = false →
        (tick sHi 5 0).1 = false
        ∧ (tick sHi 5 0).2.msProximoEnvio = sHi.msProximoEnvio)) :=
  ⟨by norm_num [measuredVolts, sHi, cfgDefault],
   timer_fire_and_hold sHi 5 0 (by norm_num [measuredVolts, sHi, cfgDefault])⟩

/-- C4: the due-test is wraparound-safe.  For true (unbounded) times `N`
(now) and `D` (due) whose separation is under 2^31 ms, the test applied to
the 32-bit clock values `N % 2^32` and `D % 2^32` answers exactly
"`D ≤ N`", even when one of the two has wrapped and the other has not. -/
theorem due_test_wraparound (N D : Nat) (h1 : N - D < i31) (h2 : D - N < i31) :
    dueReached (N % u32) (D % u32) = decide (D ≤ N) := by
  unfold dueReached
  rw [decide_eq_decide]
  unfold toInt32 wrapSub
  unfold u32 i31 at *
  split_ifs with hh
  · omega
  · omega

/-- Witness for C4: true now 2^32 + 5 (clock wrapped to 5), true due
2^32 − 100 (clock at 4294967196): the test still reports "due". -/
theorem due_test_wraparound_witness :
    ((4294967301 : Nat) - 4294967196 < i31)
    ∧ ((4294967196 : Nat) - 4294967301 < i31)
    ∧ dueReached (4294967301 % u32) (4294967196 % u32)
        = decide ((4294967196 : Nat) ≤ 4294967301) :=
  ⟨by decide, by decide, due_test_wraparound 4294967301 4294967196 (by decide) (by decide)⟩

/-- Witness for C2 at the concrete state `sLow`. -/
theorem cutoff_flag_and_gate_witness :
    (isCutoff (tick sLow 0 0).2
      = decide (measuredVolts sLow 0 < sLow.configuracion.corteVoltaje_V))
    ∧ (measuredVolts sLow 0 < sLow.configuracion.corteVoltaje_V →
        (tick sLow 0 0).1 = false) :=
  cutoff_flag_and_gate sLow 0 0

/-- The dead-band of a level, from the claim: HIGH keeps every voltage at
or above `high × (1 − f)`; MID keeps `[mid × (1 − f), high × (1 + f))`;
LOW keeps everything below `mid × (1 + f)`. -/
def inBand (cfg : Cfg) (nivel : Level) (v : ℚ) : Bool :=
  match nivel with
  | .BATT_HIGH => decide (cfg.umbralAlto_V * (1 - cfg.fraccionHisteresis) ≤ v)
  | .BATT_MID => decide (cfg.umbralMedio_V * (1 - cfg.fraccionHisteresis) ≤ v
      ∧ v < cfg.umbralAlto_V * (1 + cfg.fraccionHisteresis))
  | .BATT_LOW => decide (v < cfg.umbralMedio_V * (1 + cfg.fraccionHisteresis))

/-- A single classification step keeps the level when the voltage lies in
that level's dead-band. -/
lemma step_fixed_of_inBand (cfg : Cfg) (L : Level) (v : ℚ)
    (h : inBand cfg L v = true) :
    actualizarNivelConHisteresis cfg L v = L := by
  have e1 : cfg.umbralAlto_V * (1 - cfg.fraccionHisteresis)
      = cfg.umbralAlto_V - cfg.umbralAlto_V * cfg.fraccionHisteresis := by ring
  have e2 : cfg.umbralAlto_V * (1 + cfg.fraccionHisteresis)
      = cfg.umbralAlto_V + cfg.umbralAlto_V * cfg.fraccionHisteresis := by ring
  have e3 : cfg.umbralMedio_V * (1 - cfg.fraccionHisteresis)
      = cfg.umbralMedio_V - cfg.umbralMedio_V * cfg.fraccionHisteresis := by ring
  have e4 : cfg.umbralMedio_V * (1 + cfg.fraccionHisteresis)
      = cfg.umbralMedio_V + cfg.umbralMedio_V * cfg.fraccionHisteresis := by ring
  cases L with
  | BATT_HIGH =>
      simp only [inBand, decide_eq_true_eq, e1] at h
      simp only [actualizarNivelConHisteresis]
      rw [if_neg (not_lt.mpr h)]
  | BATT_MID =>
      simp only [inBand, decide_eq_true_eq, e3, e2] at h
      simp only [actualizarNivelConHisteresis]
      rw [if_neg (not_le.mpr h.2), if_neg (not_lt.mpr h.1)]
  | BATT_LOW =>
      simp only [inBand, decide_eq_true_eq, e4] at h
      simp only [actualizarNivelConHisteresis]
      rw [if_neg (not_le.mpr h)]

/-- C5: hysteresis no-chatter.  A finite sequence of measured voltages
that all stay inside level `L`'s dead-band leaves the level at `L`; in
particular a voltage that keeps oscillating at a threshold never flips
the level. -/
theorem no_chatter_in_band (cfg : Cfg) (L : Level) (vs : List ℚ)
    (h : vs.all (inBand cfg L) = true) :
    vs.foldl (actualizarNivelConHisteresis cfg) L = L := by
  induction vs with
  | nil => rfl
  | cons v vs ih =>
      simp only [List.all_cons, Bool.and_eq_true] at h
      rw [List.foldl_cons, step_fixed_of_inBand cfg L v h.1]
      exact ih h.2

/-- Witness for C5: from MID, the sequence 3.9, 3.6, 4.0 (all inside
MID's dead-band [3.492, 4.017) of the default config) ends at MID. -/
theorem no_chatter_in_band_witness :
    (([3.9, 3.6, 4.0] : List ℚ).all (inBand cfgDefault .BATT_MID) = true)
    ∧ ([3.9, 3.6, 4.0] : List ℚ).foldl
        (actualizarNivelConHisteresis cfgDefault) .BATT_MID = .BATT_MID :=
  ⟨by norm_num [inBand, cfgDefault],
   no_chatter_in_band cfgDefault .BATT_MID [3.9, 3.6, 4.0]
     (by norm_num [inBand, cfgDefault])⟩

/-- C6: the level is always one of the three enum values; `tick` changes
it exactly by the classification step (and not at all in a cut-off
cycle); the setters and injection never touch it; and one classification
step moves at most one level (never LOW to HIGH or HIGH to LOW). -/
theorem level_invariants :
    (∀ cfg nivel v, actualizarNivelConHisteresis cfg nivel v = Level.BATT_LOW
        ∨ actualizarNivelConHisteresis cfg nivel v = Level.BATT_MID
        ∨ actualizarNivelConHisteresis cfg nivel v = Level.BATT_HIGH)
    ∧ (∀ s ahoraMs hw, (tick s ahoraMs hw).2.nivelEnergeticoActual
        = if measuredVolts s hw < s.configuracion.corteVoltaje_V
          then s.nivelEnergeticoActual
          else actualizarNivelConHisteresis s.configuracion s.nivelEnergeticoActual
            (measuredVolts s hw))
    ∧ (∀ s a b c, (setPeriods s a b c).nivelEnergeticoActual = s.nivelEnergeticoActual)
    ∧ (∀ s a b, (setThresholds s a b).nivelEnergeticoActual = s.nivelEnergeticoActual)
    ∧ (∀ s f, (setHysteresisPct s f).nivelEnergeticoActual = s.nivelEnergeticoActual)
    ∧ (∀ s v, (setBatteryVolts s v).nivelEnergeticoActual = s.nivelEnergeticoActual)
    ∧ (∀ cfg nivel v,
        ((Level.toNat (actualizarNivelConHisteresis cfg nivel v) : Int)
          - (Level.toNat nivel : Int)).natAbs ≤ 1) := by
  refine ⟨?_, ?_, fun _ _ _ _ => rfl, fun _ _ _ => rfl, fun _ _ => rfl,
    fun _ _ => rfl, ?_⟩
  · intro cfg nivel v
    cases nivel <;> simp only [actualizarNivelConHisteresis] <;> split_ifs <;> simp
  · intro s ahoraMs hw
    by_cases h : measuredVolts s hw < s.configuracion.corteVoltaje_V
    · simp [tick, h]
    · simp only [tick, if_neg h]
      split <;> rfl
  · intro cfg nivel v
    cases nivel <;> simp only [actualizarNivelConHisteresis] <;> split_ifs <;> decide

/-- C9: without a configured ADC pin and without an injected value, the
measurement step returns the cached last voltage: `readBatteryVolts`
yields it, the cycle classifies and gates with it, and `lastVolts()` is
unchanged by the cycle. -/
theorem no_pin_uses_last (s : State) (ahoraMs : Nat) (hw : ℚ)
    (hpin : s.configuracion.pinAdcBateria < 0)
    (hinj : s.usarLecturaInyectada = false) :
    readBatteryVolts s hw = s.ultimoVoltajeMedido_V
    ∧ measuredVolts s hw = s.ultimoVoltajeMedido_V
    ∧ lastVolts (tick s ahoraMs hw).2 = s.ultimoVoltajeMedido_V := by
  have h1 : readBatteryVolts s hw = s.ultimoVoltajeMedido_V := by
    simp [readBatteryVolts, hpin]
  have h2 : measuredVolts s hw = s.ultimoVoltajeMedido_V := by
    simp [measuredVolts, hinj, h1]
  refine ⟨h1, h2, ?_⟩
  by_cases h : s.ultimoVoltajeMedido_V < s.configuracion.corteVoltaje_V
  · simp [tick, lastVolts, h2, h]
  · simp only [tick, lastVolts, h2, if_neg h]
    split <;> rfl

/-- A concrete state used to witness theorems: no ADC pin (default -1),
no injected reading, cached measurement 3.8 V. -/
def sNoPin : State :=
  { configuracion := cfgDefault,
    nivelEnergeticoActual := .BATT_MID,
    msProximoEnvio := 0,
    ultimoVoltajeMedido_V := 3.8,
    bloqueadoPorCorte := false,
    usarLecturaInyectada := false,
    voltajeInyectado_V := 0 }

/-- Witness for C9 at the concrete state `sNoPin`, hardware reading 7. -/
theorem no_pin_uses_last_witness :
    (sNoPin.configuracion.pinAdcBateria < 0)
    ∧ (sNoPin.usarLecturaInyectada = false)
    ∧ (readBatteryVolts sNoPin 7 = sNoPin.ultimoVoltajeMedido_V
      ∧ measuredVolts sNoPin 7 = sNoPin.ultimoVoltajeMedido_V
      ∧ lastVolts (tick sNoPin 0 7).2 = sNoPin.ultimoVoltajeMedido_V) :=
  ⟨by decide, rfl, no_pin_uses_last sNoPin 0 7 (by decide) rfl⟩

/-- C10: injection is irreversible through the public interface.
`setBatteryVolts` sets the injected flag and value; once the flag holds,
the measurement is the injected value (hardware sampling is bypassed for
every hardware reading), and `tick`, the setters and `begin` all keep the
flag (and `tick` keeps the injected value). -/
theorem injection_persistent (s : State) (v hw : ℚ) (ahoraMs : Nat)
    (h : s.usarLecturaInyectada = true) :
    (setBatteryVolts s v).usarLecturaInyectada = true
    ∧ (setBatteryVolts s v).voltajeInyectado_V = v
    ∧ measuredVolts s hw = s.voltajeInyectado_V
    ∧ (tick s ahoraMs hw).2.usarLecturaInyectada = true
    ∧ (tick s ahoraMs hw).2.voltajeInyectado_V = s.voltajeInyectado_V
    ∧ (∀ a b c, (setPeriods s a b c).usarLecturaInyectada = true)
    ∧ (∀ a b, (setThresholds s a b).usarLecturaInyectada = true)
    ∧ (∀ f, (setHysteresisPct s f).usarLecturaInyectada = true)
    ∧ (∀ cfg t, (begin s cfg t).usarLecturaInyectada = true) := by
  refine ⟨rfl, rfl, by simp [measuredVolts, h], ?_, ?_,
    fun _ _ _ => h, fun _ _ => h, fun _ => h, fun _ _ => h⟩ <;>
  · by_cases hc : measuredVolts s hw < s.configuracion.corteVoltaje_V
    · simp [tick, hc, h]
    · simp only [tick, if_neg hc]
      split <;> simp [h]

/-- Witness for C10 at the concrete injected state `sHi`. -/
theorem injection_persistent_witness :
    (sHi.usarLecturaInyectada = true)
    ∧ ((setBatteryVolts sHi 2).usarLecturaInyectada = true
      ∧ (setBatteryVolts sHi 2).voltajeInyectado_V = 2
      ∧ measuredVolts sHi 7 = sHi.voltajeInyectado_V
      ∧ (tick sHi 3 7).2.usarLecturaInyectada = true
      ∧ (tick sHi 3 7).2.voltajeInyectado_V = sHi.voltajeInyectado_V
      ∧ (∀ a b c, (setPeriods sHi a b c).usarLecturaInyectada = true)
      ∧ (∀ a b, (setThresholds sHi a b).usarLecturaInyectada = true)
      ∧ (∀ f, (setHysteresisPct sHi f).usarLecturaInyectada = true)
      ∧ (∀ cfg t, (begin sHi cfg t).usarLecturaInyectada = true)) :=
  ⟨rfl, injection_persistent sHi 2 7 3 rfl⟩

/-- Re-arming the timer keeps the new due-time ahead of the old one in
the 32-bit wraparound order, provided overshoot plus period stay below
2^31. -/
lemma dueReached_add_of_small (ahoraMs old P : Nat)
    (h : wrapSub ahoraMs old + P < i31) :
    dueReached ((ahoraMs + P) % u32) old = true := by
  unfold wrapSub u32 i31 at h
  unfold dueReached toInt32 wrapSub u32 i31
  simp only [decide_eq_true_eq]
  split_ifs with hh
  · omega
  · omega

/-- C7 (amended): `nextDueTime` is written by `tick` exactly when it
returns true, becoming `(now + period of the just-updated level) mod
2^32`; no setter or injection changes it; and when the overshoot past the
old due-time plus the period is below 2^31 ms, the new due-time is not
earlier than the old one in the 32-bit wraparound order. -/
theorem nextDue_advance (s : State) (ahoraMs : Nat) (hw : ℚ) :
    (∀ a b c, (setPeriods s a b c).msProximoEnvio = s.msProximoEnvio)
    ∧ (∀ a b, (setThresholds s a b).msProximoEnvio = s.msProximoEnvio)
    ∧ (∀ f, (setHysteresisPct s f).msProximoEnvio = s.msProximoEnvio)
    ∧ (∀ v, (setBatteryVolts s v).msProximoEnvio = s.msProximoEnvio)
    ∧ ((tick s ahoraMs hw).1 = false →
        (tick s ahoraMs hw).2.msProximoEnvio = s.msProximoEnvio)
    ∧ ((tick s ahoraMs hw).1 = true →
        (tick s ahoraMs hw).2.msProximoEnvio
          = (ahoraMs + periodForLevel s.configuracion
              (actualizarNivelConHisteresis s.configuracion s.nivelEnergeticoActual
                (measuredVolts s hw))) % u32)
    ∧ ((tick s ahoraMs hw).1 = true →
        wrapSub ahoraMs s.msProximoEnvio
            + periodForLevel s.configuracion
              (actualizarNivelConHisteresis s.configuracion s.nivelEnergeticoActual
                (measuredVolts s hw)) < i31 →
        dueReached (tick s ahoraMs hw).2.msProximoEnvio s.msProximoEnvio = true) := by
  refine ⟨fun _ _ _ => rfl, fun _ _ => rfl, fun _ => rfl, fun _ => rfl, ?_, ?_, ?_⟩
  · intro hf
    by_cases hc : measuredVolts s hw < s.configuracion.corteVoltaje_V
    · simp [tick, hc]
    · by_cases hd : dueReached ahoraMs s.msProximoEnvio = true
      · simp [tick, hc, hd] at hf
      · simp [tick, hc, hd]
  · intro ht
    by_cases hc : measuredVolts s hw < s.configuracion.corteVoltaje_V
    · simp [tick, hc] at ht
    · by_cases hd : dueReached ahoraMs s.msProximoEnvio = true
      · simp [tick, hc, hd, currentPeriod, periodForLevel]
      · simp [tick, hc, hd] at ht
  · intro ht hsmall
    by_cases hc : measuredVolts s hw < s.configuracion.corteVoltaje_V
    · simp [tick, hc] at ht
    · by_cases hd : dueReached ahoraMs s.msProximoEnvio = true
      · have he : (tick s ahoraMs hw).2.msProximoEnvio
            = (ahoraMs + periodForLevel s.configuracion
                (actualizarNivelConHisteresis s.configuracion s.nivelEnergeticoActual
                  (measuredVolts s hw))) % u32 := by
          simp [tick, hc, hd, currentPeriod, periodForLevel]
        rw [he]
        exact dueReached_add_of_small _ _ _ hsmall
      · simp [tick, hc, hd] at ht

/-- A concrete state for the C7 counterexample: period 1 ms at level
HIGH, injected 5 V, due-time 0. -/
def s7 : State :=
  { configuracion := { cfgDefault with periodoAlto_ms := 1 },
    nivelEnergeticoActual := .BATT_HIGH,
    msProximoEnvio := 0,
    ultimoVoltajeMedido_V := 5,
    bloqueadoPorCorte := false,
    usarLecturaInyectada := true,
    voltajeInyectado_V := 5 }

/-- C7 counterexample: a firing cycle can move `nextDueTime` strictly
*earlier* in the 32-bit wraparound order.  At due-time 0, a call at time
2^31 − 1 with period 1 fires and sets the due-time to 2^31, whose signed
32-bit difference from the old due-time 0 is negative. -/
theorem nextDue_advance_cex :
    (tick s7 2147483647 0).1 = true
    ∧ dueReached (tick s7 2147483647 0).2.msProximoEnvio s7.msProximoEnvio
        = false := by
  have hc : ¬ measuredVolts s7 0 < s7.configuracion.corteVoltaje_V := by
    norm_num [measuredVolts, s7, cfgDefault]
  have hd : dueReached 2147483647 s7.msProximoEnvio = true := by decide
  have hl : actualizarNivelConHisteresis s7.configuracion s7.nivelEnergeticoActual
      (measuredVolts s7 0) = .BATT_HIGH := by
    norm_num [actualizarNivelConHisteresis, measuredVolts, s7, cfgDefault]
  constructor
  · simp [tick, hc, hd]
  · have he : (tick s7 2147483647 0).2.msProximoEnvio = 2147483648 := by
      simp [tick, hc, hd, currentPeriod, hl]
      norm_num [s7, cfgDefault, u32]
    rw [he]
    decide

/-- Witness for the amended C7 at the concrete state `sHi`, called at
time 5 with hardware reading 0. -/
theorem nextDue_advance_witness :
    (∀ a b c, (setPeriods sHi a b c).msProximoEnvio = sHi.msProximoEnvio)
    ∧ (∀ a b, (setThresholds sHi a b).msProximoEnvio = sHi.msProximoEnvio)
    ∧ (∀ f, (setHysteresisPct sHi f).msProximoEnvio = sHi.msProximoEnvio)
    ∧ (∀ v, (setBatteryVolts sHi v).msProximoEnvio = sHi.msProximoEnvio)
    ∧ ((tick sHi 5 0).1 = false →
        (tick sHi 5 0).2.msProximoEnvio = sHi.msProximoEnvio)
    ∧ ((tick sHi 5 0).1 = true →
        (tick sHi 5 0).2.msProximoEnvio
          = (5 + periodForLevel sHi.configuracion
              (actualizarNivelConHisteresis sHi.configuracion sHi.nivelEnergeticoActual
                (measuredVolts sHi 0))) % u32)
    ∧ ((tick sHi 5 0).1 = true →
        wrapSub 5 sHi.msProximoEnvio
            + periodForLevel sHi.configuracion
              (actualizarNivelConHisteresis sHi.configuracion sHi.nivelEnergeticoActual
                (measuredVolts sHi 0)) < i31 →
        dueReached (tick sHi 5 0).2.msProximoEnvio sHi.msProximoEnvio = true) :=
  nextDue_advance sHi 5 0

end AdaptiveTXWSN
